import Mathlib

/-!
Verification of the swimpy result-file interface (`swimpy/output.py`) and the
plot-function framework (`swimpy/plot.py`).

The Python code is shallowly embedded: pandas DataFrames become association
lists of named columns over `ℚ` values, dates become proleptic-Gregorian
ordinals (the representation used by `datetime.date.toordinal`), period
indices become explicit year/month/day data, and the stateful plot-call
machinery becomes explicit state passing.  Fallible Python code (exceptions,
failed column lookups, failed dtype casts) is embedded with `Option`/`Except`.
-/

namespace Swimpy

/-! ## Calendar arithmetic (`datetime.date`)

`datetime.date(y, 1, 1) + datetime.timedelta(d - 1)` in Python is ordinal
arithmetic on the proleptic Gregorian calendar: the ordinal of the resulting
date is `toordinal(date(y,1,1)) + (d - 1)`. -/

/-- Days in the years before year `y` (CPython `_days_before_year`). -/
def daysBeforeYear (y : Int) : Int :=
  let x := y - 1
  365 * x + x.fdiv 4 - x.fdiv 100 + x.fdiv 400

/-- Gregorian leap-year test (CPython `_is_leap`). -/
def isLeap (y : Int) : Bool :=
  y % 4 == 0 && (y % 100 != 0 || y % 400 == 0)

/-- Month lengths of a non-leap year. -/
def daysInMonthTable : List Nat :=
  [31, 28, 31, 30, 31, 30, 31, 31, 30, 31, 30, 31]

/-- Days in year `y` strictly before month `m` (CPython `_days_before_month`). -/
def daysBeforeMonth (y : Int) (m : Nat) : Int :=
  ((daysInMonthTable.take (m - 1)).foldl (fun a b => a + b) 0 : Nat) +
    (if 2 < m ∧ isLeap y then 1 else 0)

/-- Python `datetime.date(y, m, d).toordinal()`: day 1 is 0001-01-01. -/
def dateToOrdinal (y : Int) (m : Nat) (d : Int) : Int :=
  daysBeforeYear y + daysBeforeMonth y m + d

/-! ## DataFrame model

A DataFrame is a list of named columns of rational values; the column order of
the list is the column order of the frame.  `df.pop(c)` removes the column
named `c` and returns its values. -/

abbrev ColumnFrame := List (String × List ℚ)

/-- Pandas `df.pop(c)`: the values of column `c` and the frame without it; `none` if
the column is missing (Python `KeyError`). -/
def framePop (df : ColumnFrame) (c : String) : Option (List ℚ × ColumnFrame) :=
  match df.lookup c with
  | some vs => some (vs, df.filter (fun p => p.1 ≠ c))
  | none => none

/-- An integer-typed pandas column cell read back from `ℚ` (C-style
truncation toward zero, as in `astype(int)`). -/
def ratToInt (q : ℚ) : Int :=
  q.num.tdiv (q.den : Int)

/-! ## `station_daily_discharge.from_project` and
`catchment_daily_waterbalance.from_project`

```python
df = pd.read_csv(path, **readkwargs)
dtms = [dt.date(y, 1, 1) + dt.timedelta(d - 1)
        for y, d in zip(df.pop("YEAR"), df.pop("DAY"))]
df.index = pd.PeriodIndex(dtms, freq="d", name="time")
return df
```

The frame is modelled after the `read_csv`/`read_table` call; a daily period
is identified with the ordinal of its date. -/

def station_daily_discharge.from_project (df : ColumnFrame) :
    Option (List Int × ColumnFrame) :=
  match framePop df ("YEAR") with
  | none => none
  | some (ys, df1) =>
    match framePop df1 ("DAY") with
    | none => none
    | some (ds, df2) =>
      some ((ys.zip ds).map
        (fun p => dateToOrdinal (ratToInt p.1) 1 1 + (ratToInt p.2 - 1)), df2)

def catchment_daily_waterbalance.from_project (df : ColumnFrame) :
    Option (List Int × ColumnFrame) :=
  match framePop df ("YR") with
  | none => none
  | some (ys, df1) =>
    match framePop df1 ("DAY") with
    | none => none
    | some (ds, df2) =>
      some ((ys.zip ds).map
        (fun p => dateToOrdinal (ratToInt p.1) 1 1 + (ratToInt p.2 - 1)), df2)

/-! ## `catchment_monthly_waterbalance.from_project`

```python
with open(path, "r") as f:
    iyr = int(f.readline().strip().split("=")[1])
    df = pd.read_table(f, delim_whitespace=True, index_col=False, **readkwargs)
df.dropna(inplace=True)  # exclude Year = ...
df = df.drop(df.index[range(12, len(df), 12+1)])  # excluded headers
dtms = ["%04i-%02i" % (iyr+int((i-1)/12.), m)
        for i, m in enumerate(df.pop("MON").astype(int))]
df.index = pd.PeriodIndex(dtms, freq="m", name="time")
return df.astype(float)
```

Raw table cells are numbers, text (from the periodically repeated header
line) or NaN; `dropna` (default `how="any"`) drops every row containing a
NaN; `astype` on a text cell raises, embedded as `none`.  `enumerate` is
0-based and `int` truncates toward zero. -/

inductive Cell where
  | num (q : ℚ)
  | txt (s : String)
  | nan
  deriving DecidableEq

def Cell.isNaN : Cell → Bool
  | Cell.nan => true
  | _ => false

/-- Pandas `astype(int)` on one cell. -/
def Cell.toInt : Cell → Option Int
  | Cell.num q => some (ratToInt q)
  | _ => none

/-- Pandas `astype(float)` on one cell. -/
def Cell.toFloat : Cell → Option ℚ
  | Cell.num q => some q
  | _ => none

/-- A row of the raw monthly table: the `MON` field and the value fields. -/
structure MonRow where
  mon : Cell
  vals : List Cell
  deriving DecidableEq

def MonRow.hasNaN (r : MonRow) : Bool :=
  r.mon.isNaN || r.vals.any Cell.isNaN

/-- The drop `df.drop(df.index[range(12, len(df), 12+1)])`: drop positions
`12, 25, 38, ...`. -/
def dropRepeatedHeaders (l : List MonRow) : List MonRow :=
  (l.enum.filter (fun p => !(12 ≤ p.1 && (p.1 - 12) % 13 == 0))).map Prod.snd

/-- The monthly parser: returns the rows as `((year, month), values)` with the
period exactly as the source computes it from the 0-based `enumerate` index. -/
def catchment_monthly_waterbalance.from_project (iyr : Int)
    (rows : List MonRow) : Option (List ((Int × Int) × List ℚ)) :=
  let dropped := rows.filter (fun r => !r.hasNaN)
  let data := dropRepeatedHeaders dropped
  data.enum.mapM (fun p => do
    let m ← p.2.mon.toInt
    let vs ← p.2.vals.mapM Cell.toFloat
    pure ((iyr + Int.tdiv ((p.1 : Int) - 1) 12, m), vs))

/-- One data row of the raw monthly table: a month number and one value. -/
def monRow (m v : ℚ) : MonRow :=
  ⟨Cell.num m, [Cell.num v]⟩

/-- A well-formed two-year raw monthly file body (after the year line and the
consumed header line): 12 monthly rows, a separator row containing NaN, the
repeated header line, then 12 more monthly rows. -/
def monRawTwoYears : List MonRow :=
  [monRow 1 1, monRow 2 1, monRow 3 1, monRow 4 1, monRow 5 1, monRow 6 1,
   monRow 7 1, monRow 8 1, monRow 9 1, monRow 10 1, monRow 11 1, monRow 12 1,
   ⟨Cell.nan, [Cell.nan]⟩, ⟨Cell.txt ("MON"), [Cell.txt ("PREC")]⟩,
   monRow 1 2, monRow 2 2, monRow 3 2, monRow 4 2, monRow 5 2, monRow 6 2,
   monRow 7 2, monRow 8 2, monRow 9 2, monRow 10 2, monRow 11 2, monRow 12 2]

/-! ## Archive CSV parsers (`from_csv`) and the export round trip

The archive file of every kind starts with an already parseable date column
(`read_csv(path, index_col=0, parse_dates=[0], **readkwargs)`); pandas date
parsing and printing are modelled by the calendar date itself, and
`to_period` by the evident projections. -/

/-- A calendar date as parsed by `parse_dates`. -/
structure PDate where
  year : Int
  month : Int
  day : Int
  deriving DecidableEq

/-- Pandas `index.to_period(freq="d")`: the daily period containing a date. -/
def PDate.toPeriodD (d : PDate) : PDate := d

/-- Pandas `index.to_period(freq="m")`: the monthly period containing a date. -/
def PDate.toPeriodM (d : PDate) : Int × Int := (d.year, d.month)

/-- Pandas `index.to_period(freq="a")`: the annual period containing a date. -/
def PDate.toPeriodA (d : PDate) : Int := d.year

/-- The parser `station_daily_discharge.from_csv`: parse the date column, collapse to a
daily period index, keep the value columns. -/
def station_daily_discharge.from_csv (dates : List PDate)
    (cols : ColumnFrame) : List PDate × ColumnFrame :=
  (dates.map PDate.toPeriodD, cols)

/-- The parser `subbasin_daily_waterbalance.from_csv`: daily periods from the date
column, then `df.pop("SUB")` paired into a two-level `(day, unit)` index. -/
def subbasin_daily_waterbalance.from_csv (dates : List PDate)
    (cols : ColumnFrame) : Option (List (PDate × ℚ) × ColumnFrame) :=
  match framePop cols ("SUB") with
  | none => none
  | some (subs, rest) => some ((dates.map PDate.toPeriodD).zip subs, rest)

/-- The parser `catchment_monthly_waterbalance.from_csv`. -/
def catchment_monthly_waterbalance.from_csv (dates : List PDate)
    (cols : ColumnFrame) : List (Int × Int) × ColumnFrame :=
  (dates.map PDate.toPeriodM, cols)

/-- The parser `catchment_annual_waterbalance.from_csv`. -/
def catchment_annual_waterbalance.from_csv (dates : List PDate)
    (cols : ColumnFrame) : List Int × ColumnFrame :=
  (dates.map PDate.toPeriodA, cols)

/-- Modelled from the spec: the archive CSV export of a daily Table.  The
exporting code (`ProjectOrRunData` in `swimpy/utils.py`) is not under src/;
per the spec the exported file has the period index rendered as a parseable
date in the first column — for a daily period, its date — and the remaining
structure matches the normalized Table. -/
def to_csv_daily (t : List PDate × ColumnFrame) : List PDate × ColumnFrame :=
  (t.1.map PDate.toPeriodD, t.2)

/-- Modelled from the spec: archive CSV export of a monthly Table; a monthly
period prints as its start date. -/
def to_csv_monthly (t : List (Int × Int) × ColumnFrame) :
    List PDate × ColumnFrame :=
  (t.1.map (fun p => ⟨p.1, p.2, 1⟩), t.2)

/-- Modelled from the spec: archive CSV export of an annual Table; an annual
period prints as its start date. -/
def to_csv_annual (t : List Int × ColumnFrame) : List PDate × ColumnFrame :=
  (t.1.map (fun y => ⟨y, 1, 1⟩), t.2)

/-- Modelled from the spec: archive CSV export of the two-level
`(day, unit)` Table; the date level is the first column and the unit level is
written as the `SUB` column before the value columns. -/
def to_csv_subbasin (t : List (PDate × ℚ) × ColumnFrame) :
    List PDate × ColumnFrame :=
  (t.1.map Prod.fst, (("SUB"), t.1.map Prod.snd) :: t.2)

/-! ## `PlotFunction` (`swimpy/plot.py`)

The wrap-time signature validation of `PlotFunction.__init__`, the overlay
loop `PlotFunction._plot_runs` and the save-option merge
`PlotFunction._get_savekwargs` are embedded with explicit state. -/

/-- The record `modelmanager.settings.FunctionInfo` as consumed by
`PlotFunction.__init__`: the function name, its optional arguments with
their default values (`none` embeds Python `None`), and whether the function
accepts open-ended `**kwargs`. -/
structure FunctionInfo where
  name : String
  optional_arguments : List String
  defaults : List (Option Unit)
  kwargs : Bool

/-- The value of `dict(zip(optional_arguments, defaults))[a]`: with duplicate
names the last zip pair wins, hence the lookup on the reversed pairing. -/
def optionalArgDefault (f : FunctionInfo) (a : String) :
    Option (Option Unit) :=
  ((f.optional_arguments.zip f.defaults).reverse).lookup a

/-- The `PlotFunction.__init__` signature enforcement, in source order:
`output=None`, `ax=None`, name prefix, `**kwargs`; each failed `assert`
raises with its message. -/
def PlotFunction.init (f : FunctionInfo) : Except String Unit :=
  if optionalArgDefault f ("output") ≠ some none then
    Except.error (f.name ++ (" has no optional argument output=None."))
  else if optionalArgDefault f ("ax") ≠ some none then
    Except.error (f.name ++ (" has no optional argument ax=None."))
  else if ¬ f.name.startsWith ("plot") then
    Except.error (f.name ++ (" should start with plot."))
  else if ¬ f.kwargs then
    Except.error (f.name ++ (" must accept kwargs."))
  else Except.ok ()

/-- The plot-contract conformance condition stated by the spec: name prefix
`plot`, optional `ax=None` and `output=None`, open keyword arguments. -/
def conformsToPlotContract (f : FunctionInfo) : Prop :=
  optionalArgDefault f ("output") = some none ∧
  optionalArgDefault f ("ax") = some none ∧
  f.name.startsWith ("plot") = true ∧
  f.kwargs = true

/-- An archived run as seen by `_plot_runs`: its string form `str(r)` and
whether it (or its sub-component) carries the target plotting method. -/
structure ArchRun where
  name : String
  hasPlotMethod : Bool
  deriving DecidableEq

/-- One entry of the `runs` keyword selector: a literal string label or a
run. -/
inductive RunsEntry where
  | label (s : String)
  | run (r : ArchRun)
  deriving DecidableEq

/-- The ambient matplotlib axes, as far as `_plot_runs` observes it. -/
structure Axes where
  hasLegend : Bool
  deriving DecidableEq

/-- One plotted series: the receiver the undecorated function was re-invoked
with (`current` for the live project), the effective `label` keyword, and the
`runs=(collection, index)` keyword passed to it. -/
structure PlottedSeries where
  receiver : String
  label : String
  runsArg : Option (List ArchRun × Nat)
  deriving DecidableEq

/-- Modelled from the spec: `project.browser.runs.get_runs` (the run-archive
collaborator, not under src/) resolves an iterable of runs to the ordered
collection of those runs. -/
def get_runs (sel : List RunsEntry) : List ArchRun :=
  sel.filterMap (fun e => match e with
    | RunsEntry.run r => some r
    | RunsEntry.label _ => none)

/-- The loop `PlotFunction._plot_runs` for a project-level method: string selector
entries are extracted (the first becomes the label of the current project,
plotted first); the remaining entries resolve through `get_runs`; each run
with the method is re-invoked with `runs=(collection, i)` and a default
label `str(r)` (overridden by an explicit `label` keyword); a run without
the method prints a diagnostic and is skipped; finally a legend is attached
if the axes has none.  Returns (plotted series, printed diagnostics, axes). -/
def PlotFunction._plot_runs (methName : String) (sel : List RunsEntry)
    (labelKw : Option String) (ax : Axes) :
    List PlottedSeries × List String × Axes :=
  let currentLabels := sel.filterMap (fun e => match e with
    | RunsEntry.label s => some s
    | RunsEntry.run _ => none)
  let selRuns := if currentLabels.isEmpty then sel else
    sel.filter (fun e => match e with
      | RunsEntry.label _ => false
      | RunsEntry.run _ => true)
  let runs := get_runs selRuns
  let current : List PlottedSeries :=
    match currentLabels.head? with
    | some s => [⟨("current"), s, none⟩]
    | none => []
  let step := fun (acc : List PlottedSeries × List String)
      (p : Nat × ArchRun) =>
    if p.2.hasPlotMethod then
      (acc.1 ++ [⟨p.2.name, labelKw.getD p.2.name, some (runs, p.1)⟩], acc.2)
    else
      (acc.1, acc.2 ++
        [p.2.name ++ (" doesnt have a ") ++ methName ++ (" method.")])
  let res := runs.enum.foldl step (current, [])
  (res.1, res.2, if ax.hasLegend then ax else ⟨true⟩)

/-! ## `plot_flow_duration_polar` binning -/

/-- Python `round` (round half to even) of the exact nonnegative ratio
`num/den`. -/
def pyRound (num den : Nat) : Nat :=
  let q := num / den
  let r := num % den
  if 2 * r < den then q
  else if den < 2 * r then q + 1
  else if q % 2 = 0 then q else q + 1

/-- Pandas `series.dropna()`: keep the (calendar-unit, value) pairs with a value. -/
def seriesDropna (s : List (Nat × Option ℚ)) : List (Nat × ℚ) :=
  s.filterMap (fun p => p.2.map (fun v => (p.1, v)))

/-- The `sort_values()` insertion step: insert before the first larger value. -/
def insertSorted (x : Nat × ℚ) : List (Nat × ℚ) → List (Nat × ℚ)
  | [] => [x]
  | y :: ys => if x.2 ≤ y.2 then x :: y :: ys else y :: insertSorted x ys

/-- Pandas `sort_values()`: sort the series ascending by value. -/
def sortValues : List (Nat × ℚ) → List (Nat × ℚ)
  | [] => []
  | x :: xs => insertSorted x (sortValues xs)

/-- The slice end `min(int(round(n*b/100.)), n)`: the end of the percentile bin `b`. -/
def percentileCut (n b : Nat) : Nat :=
  min (pyRound (n * b) 100) n

/-- The function `plot_flow_duration_polar` up to the percentile binning: the initial
`assert percentilestep <= 50`, then the loop over
`range(percentilestep, 100+1, percentilestep)` producing the percentile bins
as slices `ssorted.iloc[ib:iib]`; each bin is tagged with its bound `b`.
A zero `percentilestep` makes `range` itself raise `ValueError` (after the
assert passes).  The `count[b]` relative frequencies the source computes per
bin are recovered pointwise by `relFreq`. -/
def plot_flow_duration_polar (percentilestep : Nat)
    (series : List (Nat × Option ℚ)) :
    Except String (List (Nat × List (Nat × ℚ))) :=
  if ¬ percentilestep ≤ 50 then
    Except.error ("AssertionError: percentilestep <= 50")
  else if percentilestep = 0 then
    Except.error ("ValueError: range arg 3 must not be zero")
  else
    let ssorted := sortValues (seriesDropna series)
    let n := ssorted.length
    Except.ok ((List.range (100 / percentilestep)).map (fun k =>
      ((k + 1) * percentilestep,
        (ssorted.drop (percentileCut n (k * percentilestep))).take
          (percentileCut n ((k + 1) * percentilestep) -
            percentileCut n (k * percentilestep)))))

/-- The count `bin.groupby(getattr(bin.index, dom)).count()/float(n)` read at one
calendar unit `u`: the relative frequency of unit `u` within one percentile
bin (0 where the groupby has no group for `u`). -/
def relFreq (n : Nat) (b : List (Nat × ℚ)) (u : Nat) : ℚ :=
  ((b.filter (fun p => p.1 == u)).length : ℚ) / (n : ℚ)

/-! ## `PlotFunction._get_savekwargs` -/

/-- The per-call `output` argument of a decorated plot function: absent, a
path, or a mapping of save options. -/
inductive OutputArg (V : Type) where
  | null
  | path (v : V)
  | dict (d : List (String × V))
  deriving DecidableEq

/-- The merge `PlotFunction._get_savekwargs` combined with the destination resolution:
the save options start from `project.save_figure_defaults`; when `output` is
a dict its `output` key is popped as the destination and the remaining keys
update — take precedence over — the defaults.  Python dicts are embedded as
association lists whose leftmost binding wins on lookup, so `update` is
prepending. -/
def PlotFunction._get_savekwargs {V : Type}
    (save_figure_defaults : List (String × V)) (output : OutputArg V) :
    List (String × V) × OutputArg V :=
  match output with
  | OutputArg.dict d =>
    let op := d.lookup ("output")
    let rest := d.filter (fun p => p.1 ≠ ("output"))
    (rest ++ save_figure_defaults,
      match op with
      | some v => OutputArg.path v
      | none => OutputArg.null)
  | o => (save_figure_defaults, o)

/-! ## The `propertyplugin` result cache -/

/-- Modelled from the spec: the per-owning-instance result cache of
`modelmanager.utils.propertyplugin` (attached by `output.__init__`; the
implementation is not under src/).  Per the spec, the owning instance caches
the parsed Table until explicit invalidation; `parses` counts parser runs. -/
structure PluginCache (T : Type) where
  cached : Option T
  parses : Nat
  deriving DecidableEq

/-- Modelled from the spec: one attribute access returns the cached Table if
present, otherwise parses once and caches the result. -/
def propertyplugin_access {T : Type} (parsed : T) :
    PluginCache T → T × PluginCache T
  | ⟨some c, p⟩ => (c, ⟨some c, p⟩)
  | ⟨none, p⟩ => (parsed, ⟨some parsed, p + 1⟩)

/-- Modelled from the spec: explicit invalidation clears the cached Table. -/
def propertyplugin_invalidate {T : Type} (s : PluginCache T) : PluginCache T :=
  ⟨none, s.parses⟩

/-- Runs `n` successive attribute accesses on the same owning instance. -/
def propertyplugin_accessMany {T : Type} (parsed : T) :
    Nat → PluginCache T → List T × PluginCache T
  | 0, s => ([], s)
  | Nat.succ k, s =>
    let r := propertyplugin_access parsed s
    let rs := propertyplugin_accessMany parsed k r.2
    (r.1 :: rs.1, rs.2)

/-! ## `catchment_annual_waterbalance.plot_mean` and the `swimpy.plot`
module surface -/

/-- The module-level names bound by `swimpy/plot.py`: its imports and its
top-level definitions. -/
def plotModuleAttributes : List String :=
  ["print_function", "absolute_import", "sys", "tempfile", "functools",
   "dt", "np", "pd", "FunctionInfo", "mpl", "plt", "save",
   "plot_waterbalance", "plot_temperature_range", "plot_precipitation_bars",
   "plot_discharge", "plot_flow_duration_polar", "plot_objective_scatter",
   "_index_to_timestamp", "plot_function", "PlotFunction"]

/-- The observable steps of `catchment_annual_waterbalance.plot_mean`. -/
inductive PlotMeanEvent where
  | drewWaterbalanceBars
  | attributeError (missing : String)
  deriving DecidableEq

/-- The method `plot_mean(self, ax, output)`: draw the bar chart via
`plot.plot_waterbalance(self.mean(), ax=ax)`, then resolve
`plot.save_or_show` on the module; a missing module attribute raises
`AttributeError` there, after the drawing.  Returns the event trace and
whether the call completed. -/
def catchment_annual_waterbalance.plot_mean : List PlotMeanEvent × Bool :=
  if plotModuleAttributes.contains ("save_or_show") then
    ([PlotMeanEvent.drewWaterbalanceBars], true)
  else
    ([PlotMeanEvent.drewWaterbalanceBars,
      PlotMeanEvent.attributeError ("save_or_show")], false)

/-! # Theorems -/

/-- Removing all columns named `c` does not change the lookup of a different
name. -/
theorem lookup_filter_key_ne {β : Type} (l : List (String × β)) (k c : String)
    (h : k ≠ c) : (l.filter (fun p => p.1 ≠ c)).lookup k = l.lookup k := by
  induction l with
  | nil => simp
  | cons hd tl ih =>
    simp only [ne_eq, decide_not] at ih
    obtain ⟨k1, v1⟩ := hd
    by_cases hc : k1 = c
    · subst hc
      have hne : (k == k1) = false := by simpa using h
      simp [List.filter_cons, List.lookup, hne, ne_eq, decide_not, ih]
    · by_cases hk : (k == k1) = true
      · simp [List.filter_cons, hc, List.lookup, hk, ne_eq, decide_not]
      · have hne : (k == k1) = false := by simpa using hk
        simp [List.filter_cons, hc, List.lookup, hne, ne_eq, decide_not, ih]

/-- Pointwise access to a zip. -/
theorem getElem?_zip_of_getElem? {α β : Type} (l1 : List α) (l2 : List β)
    (k : Nat) (a : α) (b : β) (h1 : l1[k]? = some a) (h2 : l2[k]? = some b) :
    (l1.zip l2)[k]? = some (a, b) := by
  induction l1 generalizing l2 k with
  | nil => simp at h1
  | cons x xs ih =>
    cases l2 with
    | nil => simp at h2
    | cons y ys =>
      cases k with
      | zero =>
        simp only [List.getElem?_cons_zero, Option.some_inj] at h1 h2
        simp [List.zip_cons_cons, h1, h2]
      | succ n =>
        simp only [List.getElem?_cons_succ] at h1 h2
        simpa [List.zip_cons_cons] using ih ys n h1 h2

/-- C1: failing input for the claimed monthly period formula.  On a
well-formed two-year raw file with declared start year 1990, the parser drops
the separator and repeated-header rows as claimed, but the 13th remaining row
(1-based, the first month of the second year) receives period 1990-01 — the
same period as the 1st row — instead of the 1991-01 required by
`Y + floor((i-1)/12)`, because the source enumerates rows 0-based inside a
formula written for 1-based indices. -/
theorem C1_monthly_year_rollover_failing_input :
    ((catchment_monthly_waterbalance.from_project 1990 monRawTwoYears).map
        (fun t => t.map Prod.fst)).bind (fun ps => ps[12]?) =
      some ((1990 : Int), (1 : Int)) ∧
    ((catchment_monthly_waterbalance.from_project 1990 monRawTwoYears).map
        (fun t => t.map Prod.fst)).bind (fun ps => ps[0]?) =
      some ((1990 : Int), (1 : Int)) ∧
    ((1990 : Int), (1 : Int)) ≠ ((1991 : Int), (1 : Int)) := by
  refine ⟨by decide, by decide, by decide⟩

/-- C2: for both daily single-location parsers
(`station_daily_discharge.from_project` with YEAR/DAY,
`catchment_daily_waterbalance.from_project` with YR/DAY), every row index is
the daily period of `date(YEAR, 1, 1) + (DAY - 1) days`, and the returned
value columns are the input columns with the two date columns removed. -/
theorem C2_daily_date_index :
    (∀ (df : ColumnFrame) (idx : List Int) (rest : ColumnFrame) (k : Nat)
        (y d : ℚ),
        station_daily_discharge.from_project df = some (idx, rest) →
        (df.lookup ("YEAR")).bind (fun l => l[k]?) = some y →
        (df.lookup ("DAY")).bind (fun l => l[k]?) = some d →
        idx[k]? = some (dateToOrdinal (ratToInt y) 1 1 + (ratToInt d - 1)) ∧
        rest = (df.filter (fun p => p.1 ≠ ("YEAR"))).filter
          (fun p => p.1 ≠ ("DAY"))) ∧
    (∀ (df : ColumnFrame) (idx : List Int) (rest : ColumnFrame) (k : Nat)
        (y d : ℚ),
        catchment_daily_waterbalance.from_project df = some (idx, rest) →
        (df.lookup ("YR")).bind (fun l => l[k]?) = some y →
        (df.lookup ("DAY")).bind (fun l => l[k]?) = some d →
        idx[k]? = some (dateToOrdinal (ratToInt y) 1 1 + (ratToInt d - 1)) ∧
        rest = (df.filter (fun p => p.1 ≠ ("YR"))).filter
          (fun p => p.1 ≠ ("DAY"))) := by
  constructor
  · intro df idx rest k y d h hy hd
    obtain ⟨ys, hys, hyk⟩ := Option.bind_eq_some.mp hy
    obtain ⟨ds, hds, hdk⟩ := Option.bind_eq_some.mp hd
    have hfp1 : framePop df ("YEAR") =
        some (ys, df.filter (fun p => p.1 ≠ ("YEAR"))) := by
      simp only [framePop, hys]
    have hfp2 : framePop (df.filter (fun p => p.1 ≠ ("YEAR"))) ("DAY") =
        some (ds, (df.filter (fun p => p.1 ≠ ("YEAR"))).filter
          (fun p => p.1 ≠ ("DAY"))) := by
      simp only [framePop, lookup_filter_key_ne df ("DAY") ("YEAR")
        (by decide), hds]
    rw [station_daily_discharge.from_project, hfp1] at h
    dsimp only [] at h
    rw [hfp2] at h
    dsimp only [] at h
    obtain ⟨hidx, hrest⟩ := Prod.mk.injEq .. ▸ Option.some_inj.mp h
    subst hidx
    subst hrest
    refine ⟨?_, rfl⟩
    rw [List.getElem?_map, getElem?_zip_of_getElem? ys ds k y d hyk hdk]
    rfl
  · intro df idx rest k y d h hy hd
    obtain ⟨ys, hys, hyk⟩ := Option.bind_eq_some.mp hy
    obtain ⟨ds, hds, hdk⟩ := Option.bind_eq_some.mp hd
    have hfp1 : framePop df ("YR") =
        some (ys, df.filter (fun p => p.1 ≠ ("YR"))) := by
      simp only [framePop, hys]
    have hfp2 : framePop (df.filter (fun p => p.1 ≠ ("YR"))) ("DAY") =
        some (ds, (df.filter (fun p => p.1 ≠ ("YR"))).filter
          (fun p => p.1 ≠ ("DAY"))) := by
      simp only [framePop, lookup_filter_key_ne df ("DAY") ("YR")
        (by decide), hds]
    rw [catchment_daily_waterbalance.from_project, hfp1] at h
    dsimp only [] at h
    rw [hfp2] at h
    dsimp only [] at h
    obtain ⟨hidx, hrest⟩ := Prod.mk.injEq .. ▸ Option.some_inj.mp h
    subst hidx
    subst hrest
    refine ⟨?_, rfl⟩
    rw [List.getElem?_map, getElem?_zip_of_getElem? ys ds k y d hyk hdk]
    rfl

/-- C2 witness: the station parser on a concrete one-row frame; day 32 of
1990 is ordinal 726499 (1990-02-01). -/
theorem C2_daily_date_index_witness :
    ([(726499 : Int)])[0]? =
        some (dateToOrdinal (ratToInt 1990) 1 1 + (ratToInt 32 - 1)) ∧
    ([(("Q" : String), [(5 : ℚ)])] : ColumnFrame) =
      (([(("YEAR"), [1990]), (("DAY"), [32]), (("Q"), [5])] :
          ColumnFrame).filter (fun p => p.1 ≠ ("YEAR"))).filter
        (fun p => p.1 ≠ ("DAY")) :=
  C2_daily_date_index.1
    [(("YEAR"), [1990]), (("DAY"), [32]), (("Q"), [5])]
    [726499] [(("Q"), [5])] 0 1990 32 (by decide) (by decide) (by decide)

/-- A daily period index passes through date printing and re-parsing
unchanged. -/
theorem map_toPeriodD_id (l : List PDate) : l.map PDate.toPeriodD = l := by
  induction l with
  | nil => rfl
  | cons h t ih => simp [PDate.toPeriodD, ih]

/-- A monthly period index passes through start-date printing and re-parsing
unchanged. -/
theorem map_toPeriodM_start (l : List (Int × Int)) :
    (l.map (fun p => (⟨p.1, p.2, 1⟩ : PDate))).map PDate.toPeriodM = l := by
  induction l with
  | nil => rfl
  | cons h t ih => simp [PDate.toPeriodM, ih]

/-- An annual period index passes through start-date printing and re-parsing
unchanged. -/
theorem map_toPeriodA_start (l : List Int) :
    (l.map (fun y => (⟨y, 1, 1⟩ : PDate))).map PDate.toPeriodA = l := by
  induction l with
  | nil => rfl
  | cons h t ih => simp [PDate.toPeriodA, ih]

/-- C3: for all four result kinds (daily station discharge, daily sub-basin
water balance, monthly catchment water balance, annual catchment water
balance), re-parsing the exported archive CSV with the corresponding
`from_csv` parser restores the Table: same index values, same columns. -/
theorem C3_csv_round_trip :
    (∀ t : List PDate × ColumnFrame,
      station_daily_discharge.from_csv (to_csv_daily t).1 (to_csv_daily t).2
        = t) ∧
    (∀ t : List (PDate × ℚ) × ColumnFrame,
      ("SUB") ∉ t.2.map Prod.fst →
      subbasin_daily_waterbalance.from_csv (to_csv_subbasin t).1
        (to_csv_subbasin t).2 = some t) ∧
    (∀ t : List (Int × Int) × ColumnFrame,
      catchment_monthly_waterbalance.from_csv (to_csv_monthly t).1
        (to_csv_monthly t).2 = t) ∧
    (∀ t : List Int × ColumnFrame,
      catchment_annual_waterbalance.from_csv (to_csv_annual t).1
        (to_csv_annual t).2 = t) := by
  refine ⟨?_, ?_, ?_, ?_⟩
  · intro t
    show ((t.1.map PDate.toPeriodD).map PDate.toPeriodD, t.2) = t
    rw [map_toPeriodD_id, map_toPeriodD_id]
  · intro t hsub
    have hfil : t.2.filter (fun p => p.1 ≠ ("SUB")) = t.2 := by
      rw [List.filter_eq_self]
      intro a ha
      have hne : a.1 ≠ ("SUB") := by
        intro he
        exact hsub (by rw [← he]; exact List.mem_map_of_mem Prod.fst ha)
      simpa using hne
    have hlk : (((("SUB"), t.1.map Prod.snd)) :: t.2).lookup ("SUB") =
        some (t.1.map Prod.snd) := by
      simp [List.lookup]
    have hfl : (((("SUB"), t.1.map Prod.snd)) :: t.2).filter
        (fun p => p.1 ≠ ("SUB")) = t.2 := by
      rw [List.filter_cons, if_neg (by simp), hfil]
    have hpop : framePop ((("SUB"), t.1.map Prod.snd) :: t.2) ("SUB") =
        some (t.1.map Prod.snd, t.2) := by
      unfold framePop
      simp only [hlk, hfl]
    have hstep : subbasin_daily_waterbalance.from_csv (to_csv_subbasin t).1
        (to_csv_subbasin t).2 =
        some (((t.1.map Prod.fst).map PDate.toPeriodD).zip
          (t.1.map Prod.snd), t.2) := by
      simp only [subbasin_daily_waterbalance.from_csv, to_csv_subbasin, hpop]
    rw [hstep, map_toPeriodD_id, List.zip_map']
    simp
  · intro t
    show ((t.1.map (fun p => (⟨p.1, p.2, 1⟩ : PDate))).map PDate.toPeriodM,
      t.2) = t
    rw [map_toPeriodM_start]
  · intro t
    show ((t.1.map (fun y => (⟨y, 1, 1⟩ : PDate))).map PDate.toPeriodA,
      t.2) = t
    rw [map_toPeriodA_start]

/-- C3 witness: the sub-basin round trip on a concrete one-row Table. -/
theorem C3_csv_round_trip_witness :
    (("SUB") ∉ ([(("Q" : String), [(1 : ℚ)])]).map Prod.fst) ∧
    subbasin_daily_waterbalance.from_csv
        (to_csv_subbasin ([(⟨2000, 1, 1⟩, 3)], [(("Q"), [1])])).1
        (to_csv_subbasin ([(⟨2000, 1, 1⟩, 3)], [(("Q"), [1])])).2 =
      some ([(⟨2000, 1, 1⟩, 3)], [(("Q"), [1])]) :=
  ⟨by decide, C3_csv_round_trip.2.1 ([(⟨2000, 1, 1⟩, 3)], [(("Q"), [1])])
    (by decide)⟩

/-- C5: wrap-time validation accepts a function exactly when its name starts
with `plot`, it has optional arguments `ax=None` and `output=None`, and it
accepts open-ended keyword arguments; otherwise `PlotFunction.__init__`
raises a descriptive `AssertionError` at decoration time. -/
theorem C5_wrap_time_validation (f : FunctionInfo) :
    PlotFunction.init f = Except.ok () ↔ conformsToPlotContract f := by
  unfold PlotFunction.init conformsToPlotContract
  split_ifs with h1 h2 h3 h4 <;> simp_all

/-- Lookup over an appended association list prefers the left list. -/
theorem lookup_append {β : Type} (l1 l2 : List (String × β)) (k : String) :
    (l1 ++ l2).lookup k = (l1.lookup k).orElse (fun _ => l2.lookup k) := by
  induction l1 with
  | nil => simp [List.lookup, Option.orElse]
  | cons hd tl ih =>
    obtain ⟨k1, v1⟩ := hd
    by_cases hk : (k == k1) = true
    · simp [List.lookup, hk, Option.orElse]
    · have hne : (k == k1) = false := by simpa using hk
      simp [List.lookup, hne, ih]

/-- C4: overlay determinism of `_plot_runs`.  With selector
`[live, runA, runB]` the plotted series are exactly the current project
first, labelled with the string, then each run in selector order with
`runs=(collection, index)` and default label `str(run)`; a run without the
plotting method is skipped with a printed diagnostic while the remaining
runs are still drawn; afterwards a legend is attached if the axes has
none. -/
theorem C4_overlay_order (mn : String) (a b c : ArchRun) (ax : Axes)
    (ha : a.hasPlotMethod = true) (hb : b.hasPlotMethod = true)
    (hc : c.hasPlotMethod = false) :
    (PlotFunction._plot_runs mn
        [RunsEntry.label ("live"), RunsEntry.run a, RunsEntry.run b]
        none ax).1 =
      [⟨("current"), ("live"), none⟩,
       ⟨a.name, a.name, some ([a, b], 0)⟩,
       ⟨b.name, b.name, some ([a, b], 1)⟩] ∧
    (PlotFunction._plot_runs mn
        [RunsEntry.label ("live"), RunsEntry.run a, RunsEntry.run c,
         RunsEntry.run b] none ax).1 =
      [⟨("current"), ("live"), none⟩,
       ⟨a.name, a.name, some ([a, c, b], 0)⟩,
       ⟨b.name, b.name, some ([a, c, b], 2)⟩] ∧
    (PlotFunction._plot_runs mn
        [RunsEntry.label ("live"), RunsEntry.run a, RunsEntry.run c,
         RunsEntry.run b] none ax).2.1 =
      [c.name ++ (" doesnt have a ") ++ mn ++ (" method.")] ∧
    ((PlotFunction._plot_runs mn
        [RunsEntry.label ("live"), RunsEntry.run a, RunsEntry.run b]
        none ax).2.2).hasLegend = true := by
  refine ⟨?_, ?_, ?_, ?_⟩
  · simp [PlotFunction._plot_runs, get_runs, List.enum, List.enumFrom,
      ha, hb]
  · simp [PlotFunction._plot_runs, get_runs, List.enum, List.enumFrom,
      ha, hb, hc]
  · simp [PlotFunction._plot_runs, get_runs, List.enum, List.enumFrom,
      ha, hb, hc]
  · rcases ax with ⟨hl⟩
    cases hl <;>
      simp [PlotFunction._plot_runs, get_runs, List.enum, List.enumFrom]

/-- C4 witness: two conforming runs and one without the method, on axes
without a legend. -/
theorem C4_overlay_order_witness :
    ((⟨("runA"), true⟩ : ArchRun).hasPlotMethod = true ∧
     (⟨("runB"), true⟩ : ArchRun).hasPlotMethod = true ∧
     (⟨("runC"), false⟩ : ArchRun).hasPlotMethod = false) ∧
    (PlotFunction._plot_runs ("plot_discharge")
        [RunsEntry.label ("live"), RunsEntry.run ⟨("runA"), true⟩,
         RunsEntry.run ⟨("runB"), true⟩] none ⟨false⟩).1 =
      [⟨("current"), ("live"), none⟩,
       ⟨("runA"), ("runA"), some ([⟨("runA"), true⟩, ⟨("runB"), true⟩], 0)⟩,
       ⟨("runB"), ("runB"),
         some ([⟨("runA"), true⟩, ⟨("runB"), true⟩], 1)⟩] :=
  ⟨⟨rfl, rfl, rfl⟩,
    (C4_overlay_order ("plot_discharge") ⟨("runA"), true⟩ ⟨("runB"), true⟩
      ⟨("runC"), false⟩ ⟨false⟩ rfl rfl rfl).1⟩

/-- C8: the effective save options are the project `save_figure_defaults`
updated by the per-call `output` mapping: the popped `output` key becomes
the destination and every remaining key takes precedence over the project
default of the same name; a non-dict `output` leaves the defaults
unchanged. -/
theorem C8_savekwargs_merge {V : Type} (dflts d : List (String × V))
    (k : String) (hk : k ≠ ("output")) :
    ((PlotFunction._get_savekwargs dflts (OutputArg.dict d)).1.lookup k =
      (d.lookup k).orElse (fun _ => dflts.lookup k)) ∧
    ((PlotFunction._get_savekwargs dflts (OutputArg.dict d)).2 =
      match d.lookup ("output") with
      | some v => OutputArg.path v
      | none => OutputArg.null) ∧
    (PlotFunction._get_savekwargs dflts OutputArg.null).1 = dflts ∧
    (∀ v, (PlotFunction._get_savekwargs dflts (OutputArg.path v)).1 =
      dflts) := by
  refine ⟨?_, rfl, rfl, fun v => rfl⟩
  show (d.filter (fun p => p.1 ≠ ("output")) ++ dflts).lookup k = _
  rw [lookup_append, lookup_filter_key_ne d k ("output") hk]

/-- C8 witness: a dict output overriding one default next to an untouched
default. -/
theorem C8_savekwargs_merge_witness :
    (("size" : String) ≠ ("output")) ∧
    ((PlotFunction._get_savekwargs [(("dpi"), (100 : Nat)), (("size"), 1)]
        (OutputArg.dict [(("size"), 5), (("output"), 7)])).1.lookup
      ("size") =
      (([(("size"), (5 : Nat)), (("output"), 7)]).lookup ("size")).orElse
        (fun _ =>
          ([(("dpi"), (100 : Nat)), (("size"), 1)]).lookup ("size"))) :=
  ⟨by decide,
    (C8_savekwargs_merge [(("dpi"), 100), (("size"), 1)]
      [(("size"), 5), (("output"), 7)] ("size") (by decide)).1⟩

/-- Once the Table is cached, every further access returns the cached value
and no further parse happens. -/
theorem accessMany_cached {T : Type} (t : T) (n : Nat) :
    ∀ p : Nat, propertyplugin_accessMany t n ⟨some t, p⟩ =
      (List.replicate n t, ⟨some t, p⟩) := by
  induction n with
  | zero => intro p; rfl
  | succ k ih =>
    intro p
    simp [propertyplugin_accessMany, propertyplugin_access, ih p,
      List.replicate]

/-- C9: on a fresh owning instance, any positive number of accesses to the
bound result attribute all return the same parsed Table with exactly one
parse; after an explicit invalidation the same accesses parse exactly once
more. -/
theorem C9_cache_single_parse {T : Type} (t : T) (n : Nat) (h : 0 < n) :
    propertyplugin_accessMany t n ⟨none, 0⟩ =
      (List.replicate n t, ⟨some t, 1⟩) ∧
    propertyplugin_accessMany t n (propertyplugin_invalidate ⟨some t, 1⟩) =
      (List.replicate n t, ⟨some t, 2⟩) := by
  obtain ⟨k, rfl⟩ : ∃ k, n = k + 1 := ⟨n - 1, by omega⟩
  constructor
  · simp [propertyplugin_accessMany, propertyplugin_access,
      accessMany_cached, List.replicate]
  · simp [propertyplugin_invalidate, propertyplugin_accessMany,
      propertyplugin_access, accessMany_cached, List.replicate]

/-- C9 witness: two accesses on a fresh instance return the Table twice with
one parse. -/
theorem C9_cache_single_parse_witness :
    0 < 2 ∧
    propertyplugin_accessMany (7 : Nat) 2 ⟨none, 0⟩ =
      ([7, 7], ⟨some 7, 1⟩) :=
  ⟨by decide, by
    have hm := (C9_cache_single_parse (7 : Nat) 2 (by decide)).1
    simpa using hm⟩

/-- Inserting into a list is a permutation of consing. -/
theorem insertSorted_perm (x : Nat × ℚ) (l : List (Nat × ℚ)) :
    List.Perm (insertSorted x l) (x :: l) := by
  induction l with
  | nil => exact List.Perm.refl _
  | cons y ys ih =>
    by_cases h : x.2 ≤ y.2
    · rw [insertSorted, if_pos h]
    · rw [insertSorted, if_neg h]
      exact List.Perm.trans (List.Perm.cons y ih) (List.Perm.swap x y ys)

/-- Sorting by `sort_values()` permutes the series. -/
theorem sortValues_perm (l : List (Nat × ℚ)) :
    List.Perm (sortValues l) l := by
  induction l with
  | nil => exact List.Perm.refl _
  | cons x xs ih =>
    exact List.Perm.trans (insertSorted_perm x (sortValues xs))
      (List.Perm.cons x ih)

/-- The cut `percentileCut n 0 = 0`: the first slice starts at the beginning. -/
theorem percentileCut_zero (n : Nat) : percentileCut n 0 = 0 := by
  simp [percentileCut, pyRound]

/-- The cut `percentileCut n 100 = n`: the last slice ends at the end. -/
theorem percentileCut_100 (n : Nat) : percentileCut n 100 = n := by
  have hq : n * 100 / 100 = n := Nat.mul_div_cancel n (by norm_num)
  have hr : n * 100 % 100 = 0 := Nat.mul_mod_left n 100
  simp [percentileCut, pyRound, hq, hr]

/-- C6 counterexample: `percentilestep=30` is no divisor of 50, yet the
source accepts it without raising: its only check is `<= 50`, and the
binning then simply never covers the top 10 percent of values. -/
theorem C6_no_divisibility_check_counterexample :
    (50 % 30 ≠ 0) ∧
    plot_flow_duration_polar 30 [(1, some 1)] =
      Except.ok [(30, []), (60, [(1, 1)]), (90, [])] := by
  exact ⟨by decide, rfl⟩

/-- C6 amended: `plot_flow_duration_polar` validates only
`percentilestep <= 50` by its initial assert — raised immediately, before
any axes manipulation or binning — plus Python `range` rejecting a zero
step; divisibility by 50 is never checked. -/
theorem C6_amended_validation (ps : Nat) (s : List (Nat × Option ℚ)) :
    ((∃ bins, plot_flow_duration_polar ps s = Except.ok bins) ↔
      0 < ps ∧ ps ≤ 50) ∧
    (50 < ps → plot_flow_duration_polar ps s =
      Except.error ("AssertionError: percentilestep <= 50")) := by
  unfold plot_flow_duration_polar
  by_cases h1 : ps ≤ 50
  · rw [if_neg (not_not_intro h1)]
    by_cases h2 : ps = 0
    · rw [if_pos h2]
      constructor
      · constructor
        · intro hex
          obtain ⟨bins, hb⟩ := hex
          exact absurd hb (by simp)
        · intro hps
          exact absurd h2 (by omega)
      · intro hlt
        exact absurd hlt (not_lt.mpr h1)
    · rw [if_neg h2]
      constructor
      · constructor
        · intro _
          exact ⟨Nat.pos_of_ne_zero h2, h1⟩
        · intro _
          exact ⟨_, rfl⟩
      · intro hlt
        exact absurd hlt (not_lt.mpr h1)
  · rw [if_pos h1]
    constructor
    · constructor
      · intro hex
        obtain ⟨bins, hb⟩ := hex
        exact absurd hb (by simp)
      · intro hps
        exact absurd hps.2 h1
    · intro _
      rfl

/-- C6 amended witness: percentilestep 60 is rejected by the assert. -/
theorem C6_amended_validation_witness :
    (50 < 60) ∧
    plot_flow_duration_polar 60 ([] : List (Nat × Option ℚ)) =
      Except.error ("AssertionError: percentilestep <= 50") :=
  ⟨by decide, (C6_amended_validation 60 []).2 (by decide)⟩

/-- C7: with `percentilestep=50` exactly two percentile bins are produced,
and for every calendar unit the relative frequencies of the two bins sum to
the fraction of all non-missing values lying in that unit, which never
exceeds 1. -/
theorem C7_two_bins_relfreq_sum (series : List (Nat × Option ℚ)) (u : Nat) :
    ∃ b1 b2,
      plot_flow_duration_polar 50 series = Except.ok [(50, b1), (100, b2)] ∧
      relFreq (sortValues (seriesDropna series)).length b1 u +
          relFreq (sortValues (seriesDropna series)).length b2 u =
        (((seriesDropna series).filter (fun p => p.1 == u)).length : ℚ) /
          ((seriesDropna series).length : ℚ) ∧
      (((seriesDropna series).filter (fun p => p.1 == u)).length : ℚ) /
          ((seriesDropna series).length : ℚ) ≤ 1 := by
  have hperm : List.Perm (sortValues (seriesDropna series))
      (seriesDropna series) := sortValues_perm _
  have hlen : (sortValues (seriesDropna series)).length =
      (seriesDropna series).length := hperm.length_eq
  refine ⟨(sortValues (seriesDropna series)).take
      (percentileCut (sortValues (seriesDropna series)).length 50),
    ((sortValues (seriesDropna series)).drop
      (percentileCut (sortValues (seriesDropna series)).length 50)).take
      (percentileCut (sortValues (seriesDropna series)).length 100 -
        percentileCut (sortValues (seriesDropna series)).length 50),
    ?_, ?_, ?_⟩
  · unfold plot_flow_duration_polar
    rw [if_neg (by norm_num), if_neg (by norm_num)]
    have hrg : List.range (100 / 50) = [0, 1] := rfl
    rw [hrg]
    simp only [List.map_cons, List.map_nil]
    norm_num [percentileCut_zero]
  · have hsplit : (sortValues (seriesDropna series)).take
        (percentileCut (sortValues (seriesDropna series)).length 50) ++
        (sortValues (seriesDropna series)).drop
          (percentileCut (sortValues (seriesDropna series)).length 50) =
        sortValues (seriesDropna series) := List.take_append_drop _ _
    have hb2 : ((sortValues (seriesDropna series)).drop
        (percentileCut (sortValues (seriesDropna series)).length 50)).take
        (percentileCut (sortValues (seriesDropna series)).length 100 -
          percentileCut (sortValues (seriesDropna series)).length 50) =
        (sortValues (seriesDropna series)).drop
          (percentileCut (sortValues (seriesDropna series)).length 50) := by
      rw [percentileCut_100]
      rw [show (sortValues (seriesDropna series)).length -
          percentileCut (sortValues (seriesDropna series)).length 50 =
          ((sortValues (seriesDropna series)).drop
            (percentileCut (sortValues (seriesDropna series)).length
              50)).length from (List.length_drop _ _).symm]
      exact List.take_length _
    rw [hb2]
    unfold relFreq
    rw [div_add_div_same]
    have hcnt : (((sortValues (seriesDropna series)).take
          (percentileCut (sortValues (seriesDropna series)).length
            50)).filter (fun p => p.1 == u)).length +
        (((sortValues (seriesDropna series)).drop
          (percentileCut (sortValues (seriesDropna series)).length
            50)).filter (fun p => p.1 == u)).length =
        ((sortValues (seriesDropna series)).filter
          (fun p => p.1 == u)).length := by
      rw [← List.length_append, ← List.filter_append, hsplit]
    have hcntp : ((sortValues (seriesDropna series)).filter
        (fun p => p.1 == u)).length =
        ((seriesDropna series).filter (fun p => p.1 == u)).length :=
      (hperm.filter _).length_eq
    rw [← Nat.cast_add, hcnt, hcntp, hlen]
  · rcases Nat.eq_zero_or_pos (seriesDropna series).length with h0 | hpos
    · rw [h0]
      simp
    · apply div_le_one_of_le₀
      · exact_mod_cast List.length_filter_le _ _
      · positivity

/-- C10: `swimpy/plot.py` binds no module attribute named `save_or_show`, so
`catchment_annual_waterbalance.plot_mean` draws the water-balance bar chart
and then raises `AttributeError`; the call never completes. -/
theorem C10_plot_mean_always_raises :
    (("save_or_show") ∉ plotModuleAttributes) ∧
    catchment_annual_waterbalance.plot_mean =
      ([PlotMeanEvent.drewWaterbalanceBars,
        PlotMeanEvent.attributeError ("save_or_show")], false) := by
  refine ⟨by decide, by decide⟩

end Swimpy
